import Mathlib

/-!
Verification development for the aneco_foundation receipt-scanning service.

The definitions below are a shallow embedding of the JavaScript source:
  - server/index.js : payload normalization, validation, the account-lock
    protocol, duplicate checks, signature persistence and the create/update
    HTTP handlers (modelled as pure functions over an explicit environment
    describing the outcomes of external calls, returning a response, a trace
    of performed effects and the resulting record store).
  - src/OCRLanding.js : the OCR digit-confusable correction map and the
    transaction-reference extraction pipeline.

JavaScript numbers are modelled as exact rationals (with the IEEE finiteness
bound made explicit); machine strings are Lean strings; fallible external
calls are modelled with Except / Option outcomes supplied by the environment.
-/

namespace Aneco

/-- Characters treated as whitespace by the JavaScript regex class. -/
def isJsWs (c : Char) : Bool :=
  c = ' ' || c = '\t' || c = '\n' || c = '\r' || c = Char.ofNat 11 || c = Char.ofNat 12

/-- Model of the JavaScript String.prototype.trim on a character list. -/
def jsTrimList (l : List Char) : List Char :=
  ((l.dropWhile isJsWs).reverse.dropWhile isJsWs).reverse

/-- Model of String.prototype.trim. -/
def jsTrim (s : String) : String :=
  (jsTrimList s.data).asString

/-- Model of String.prototype.toUpperCase (ASCII range, as used here). -/
def jsToUpper (s : String) : String :=
  (s.data.map Char.toUpper).asString

/-- Number of decimal digit characters in a string, as countDigits in index.js. -/
def countDigits (s : String) : Nat :=
  (s.data.filter Char.isDigit).length

/-- Fold a digit list into a natural number. -/
def digitsToNat (l : List Char) : Nat :=
  l.foldl (fun a c => a * 10 + (c.toNat - 48)) 0

/-- Consume an optional leading sign, as Number.parseFloat does. -/
def parseSign : List Char → (Int × List Char)
  | '+' :: rest => (1, rest)
  | '-' :: rest => (-1, rest)
  | l => (1, l)

/-- Syntactic part of Number.parseFloat on an already-trimmed string: the
longest numeric literal prefix, returned as sign, integer-part value,
fraction value, fraction length and exponent; none when no numeric prefix
exists or the literal is Infinity. -/
def jsParseFloatParts (l : List Char) : Option (Int × Nat × Nat × Nat × Int) :=
  let sl := parseSign l
  if sl.2.take 8 = "Infinity".data then none
  else
    let intPart := sl.2.takeWhile Char.isDigit
    let rest1 := sl.2.dropWhile Char.isDigit
    let fr :=
      match rest1 with
      | '.' :: r => (r.takeWhile Char.isDigit, r.dropWhile Char.isDigit)
      | _ => ([], rest1)
    if intPart = [] ∧ fr.1 = [] then none
    else
      let expVal : Int :=
        match fr.2 with
        | c :: r =>
          if c = 'e' ∨ c = 'E' then
            let er := parseSign r
            let eDigits := er.2.takeWhile Char.isDigit
            if eDigits = [] then 0 else er.1 * (digitsToNat eDigits : Int)
          else 0
        | [] => 0
      some (sl.1, digitsToNat intPart, digitsToNat fr.1, fr.1.length, expVal)

/-- Numeric part of Number.parseFloat: assemble the parsed parts into an
exact rational, with none for a value outside the IEEE finite range, so
that the caller sees exactly the values Number.isFinite accepts. -/
def ratOfParts : Int × Nat × Nat × Nat × Int → Option ℚ :=
  fun parts =>
    let mantissa : ℚ := (parts.2.1 : ℚ) + (parts.2.2.1 : ℚ) / ((10 : ℚ) ^ parts.2.2.2.1)
    let q : ℚ := (parts.1 : ℚ) * mantissa * (10 : ℚ) ^ parts.2.2.2.2
    if q ≤ -((2 : ℚ) ^ (1024 : ℕ)) ∨ (2 : ℚ) ^ (1024 : ℕ) ≤ q then none else some q

/-- Model of Number.parseFloat: none models NaN or an infinite result. -/
def jsParseFloat (l : List Char) : Option ℚ :=
  (jsParseFloatParts l).bind ratOfParts

/-- Result of parseMoney in index.js: null, NaN, or a finite number. -/
inductive MoneyVal where
  | null
  | nan
  | num (q : ℚ)
deriving DecidableEq, Repr

/-- Model of parseMoney: strip thousands separators, trim, empty means null,
an unparsable or non-finite value means NaN. -/
def parseMoney : Option String → MoneyVal
  | none => .null
  | some s =>
    let normalized := jsTrimList (s.data.filter (fun c => c ≠ ','))
    if normalized = [] then .null
    else
      match jsParseFloat normalized with
      | none => .nan
      | some q => .num q

/-- Model of normalizeAccountNumber: trim, uppercase, strip all whitespace. -/
def normalizeAccountNumber (v : Option String) : String :=
  (((jsTrimList (v.getD "").data).map Char.toUpper).filter (fun c => ¬ isJsWs c)).asString

/-- Model of normalizeTransactionRef: keep only digits, then trim. -/
def normalizeTransactionRef (v : Option String) : String :=
  (jsTrimList ((v.getD "").data.filter Char.isDigit)).asString

/-- Model of normalizeText: coerce null to empty and trim. -/
def normalizeText (v : Option String) : String :=
  jsTrim (v.getD "")

/-- Characters allowed after the first letter of a customer name, as the
class beginning with A-Za-z, whitespace, comma in validateOcrPayload. -/
def isNameRestChar (c : Char) : Bool :=
  c.isAlpha || isJsWs c || c = ',' || c = '-' || c = '.' || c = '/' || c = Char.ofNat 39

/-- The customer-name shape test of validateOcrPayload: a letter followed by
letters, whitespace and the limited punctuation set. -/
def matchesNameShape (s : String) : Bool :=
  match s.data with
  | [] => false
  | c :: rest => c.isAlpha && rest.all isNameRestChar

/-- Strip a single leading capital B, as the replace on the normalized
account number in validateOcrPayload. -/
def dropLeadingB (s : String) : String :=
  match s.data with
  | 'B' :: r => r.asString
  | _ => s

/-- True when the string is entirely digits with at least six of them, which
is the digit test applied to the stripped account number. -/
def isSixPlusDigits (s : String) : Bool :=
  s.data.all Char.isDigit && decide (6 ≤ s.data.length)

/-- The request body of the create/update endpoints; absent fields are none. -/
structure Payload where
  transactionRef : Option String := none
  accountNumber : Option String := none
  customerName : Option String := none
  scannerName : Option String := none
  date : Option String := none
  company : Option String := none
  electricityBill : Option String := none
  amountDue : Option String := none
  totalSales : Option String := none
  signature : Option String := none
deriving DecidableEq, Repr

/-- The normalized record produced by validateOcrPayload. -/
structure OcrData where
  transactionRef : String
  accountNumber : String
  customerName : String
  scannerName : String
  date : String
  company : Option String
  electricityBill : MoneyVal
  amountDue : Option ℚ
  totalSales : Option ℚ
deriving DecidableEq, Repr

/-- Result of validateOcrPayload: the collected error messages and the
normalized data. -/
structure ValidationResult where
  errors : List String
  data : OcrData
deriving DecidableEq, Repr

/-- Coerce a NaN money value to null, as the ternary on amountDue and
totalSales in the returned data object. -/
def moneyToOptional : MoneyVal → Option ℚ
  | .num q => some q
  | _ => none

/-- Model of validateOcrPayload in index.js: normalize every field, then
collect one message for every violated rule, in source order. -/
def validateOcrPayload (p : Payload) : ValidationResult :=
  let transactionRef := normalizeTransactionRef p.transactionRef
  let accountNumber := normalizeAccountNumber p.accountNumber
  let customerName := normalizeText p.customerName
  let scannerName := normalizeText p.scannerName
  let date := normalizeText p.date
  let company := if normalizeText p.company = "" then none else some (normalizeText p.company)
  let electricityBill := parseMoney p.electricityBill
  let amountDue := parseMoney p.amountDue
  let totalSales := parseMoney p.totalSales
  let accountDigits := dropLeadingB accountNumber
  let errors :=
    (if transactionRef = "" then ["Transaction Reference is required"] else []) ++
    (if transactionRef ≠ "" ∧ countDigits transactionRef < 15 then
      ["Transaction reference must have at least 15 digits"] else []) ++
    (if date = "" then ["Date is required"] else []) ++
    (if customerName = "" then ["Customer Name is required"] else []) ++
    (if customerName ≠ "" ∧ ¬ matchesNameShape customerName = true then
      ["Customer Name must contain valid text only"] else []) ++
    (if accountNumber = "" then ["Account Number is required"] else []) ++
    (if accountNumber ≠ "" ∧ ¬ isSixPlusDigits accountDigits = true then
      ["Account number must contain at least 6 digits"] else []) ++
    (if scannerName = "" then ["Scanner Name is required"] else []) ++
    (match electricityBill with
     | .null => ["Amount (Bill) is required"]
     | .nan => ["Bill amount must be at least 50"]
     | .num q => if q < 50 then ["Bill amount must be at least 50"] else []) ++
    (if amountDue = .nan then ["Amount Due must be a valid number"] else []) ++
    (if totalSales = .nan then ["Total Sales must be a valid number"] else [])
  { errors := errors
    data :=
      { transactionRef := transactionRef
        accountNumber := accountNumber
        customerName := customerName
        scannerName := scannerName
        date := date
        company := company
        electricityBill := electricityBill
        amountDue := moneyToOptional amountDue
        totalSales := moneyToOptional totalSales } }

/-! OCR transaction-reference extraction, from src/OCRLanding.js. -/

/-- The per-character digit-confusable correction applied by the chained
replaces of cleanOCRNumber: O, o, D, Q to 0; I, l, pipe, bracket to 1;
Z to 2; S to 5; B to 8. -/
def mapConfusable (c : Char) : Char :=
  if c = 'O' || c = 'o' || c = 'D' || c = 'Q' then '0'
  else if c = 'I' || c = 'l' || c = '|' || c = ']' then '1'
  else if c = 'Z' then '2'
  else if c = 'S' then '5'
  else if c = 'B' then '8'
  else c

/-- Model of cleanOCRNumber: apply the confusable correction, then strip
every character that is not a digit or a dot. -/
def cleanOCRNumber (s : String) : String :=
  ((s.data.map mapConfusable).filter (fun c => c.isDigit || c = '.')).asString

/-- The transaction-reference pipeline applied to the captured run in
parseOCRText: correct confusables, and if the cleaned result exceeds 20
characters truncate it to the first 15. -/
def refFromCapture (cap : String) : String :=
  let cleaned := cleanOCRNumber cap
  if 20 < cleaned.data.length then (cleaned.data.take 15).asString else cleaned

/-- Character class of the capture group of the transaction regex, with the
case-insensitive flag: digits plus the confusables O, I, l, Z, S, B. -/
def isRunChar (c : Char) : Bool :=
  c.isDigit || c.toLower = 'o' || c.toLower = 'i' || c.toLower = 'l' ||
  c.toLower = 'z' || c.toLower = 's' || c.toLower = 'b'

/-- Case-insensitive literal match: consume the pattern, return the rest. -/
def matchLitCI : List Char → List Char → Option (List Char)
  | [], l => some l
  | _ :: _, [] => none
  | c :: cs, d :: ds => if c.toLower = d.toLower then matchLitCI cs ds else none

/-- Greedy star over a character class with backtracking into the
continuation, as a regex engine evaluates a star. -/
def starGreedy (p : Char → Bool) (k : List Char → Option (List Char)) :
    List Char → Option (List Char)
  | [] => k []
  | c :: cs =>
    if p c then Option.orElse (starGreedy p k cs) (fun _ => k (c :: cs))
    else k (c :: cs)

/-- The capture group of the transaction regex: a greedy maximal run of at
least 15 characters of the confusable-digit class. -/
def captureRun (l : List Char) : Option (List Char) :=
  let run := l.takeWhile isRunChar
  if 15 ≤ run.length then some run else none

/-- Whitespace star followed by the capture group. -/
def wsThenCapture (l : List Char) : Option (List Char) :=
  starGreedy isJsWs captureRun l

/-- The optional punctuation of the transaction regex, colon, dot or hyphen,
tried greedily with fallback to not consuming it. -/
def optPunct (l : List Char) : Option (List Char) :=
  match l with
  | c :: cs =>
    if c = ':' || c = '.' || c = '-' then
      Option.orElse (wsThenCapture cs) (fun _ => wsThenCapture (c :: cs))
    else wsThenCapture (c :: cs)
  | [] => wsThenCapture []

/-- Attempt the whole transaction-reference pattern at one position: the
literal Trans, letters, whitespace, the literal Ref, letters, whitespace,
optional punctuation, whitespace, then the long confusable-digit run. -/
def matchTransAt (l : List Char) : Option (List Char) :=
  match matchLitCI "trans".data l with
  | none => none
  | some l1 =>
    starGreedy Char.isAlpha (fun l2 =>
      starGreedy isJsWs (fun l3 =>
        match matchLitCI "ref".data l3 with
        | none => none
        | some l4 =>
          starGreedy Char.isAlpha (fun l5 =>
            starGreedy isJsWs optPunct l5) l4) l2) l1

/-- Scan left to right for the first position where the transaction pattern
matches, as a regex search does, returning the captured run. -/
def findTransCaptureGo : List Char → Option String
  | [] => none
  | c :: cs =>
    match matchTransAt (c :: cs) with
    | some cap => some cap.asString
    | none => findTransCaptureGo cs

/-- Search the whole text for the transaction-reference pattern. -/
def findTransCapture (text : String) : Option String :=
  findTransCaptureGo text.data

/-- The transactionRef field produced by parseOCRText: the captured run, if
any, passed through correction and the length heuristic. -/
def parseOCRTextTransRef (text : String) : Option String :=
  (findTransCapture text).map refFromCapture

/-! Server data model and effect traces for the create/update endpoints. -/

/-- A persisted row of the ocr_data table. -/
structure Row where
  id : Nat
  transaction_ref : String
  account_number : String
  customer_name : String
  scanner_name : String
  company : Option String
  date : String
  electricity_bill : MoneyVal
  amount_due : Option ℚ
  total_sales : Option ℚ
  signature_name : Option String
  created_at : String
deriving DecidableEq, Repr

/-- External effects a request handler performs, in order. -/
inductive Ev where
  | ensureTable
  | lockAcquire (key : String)
  | lockRelease (key : String)
  | dupAccountCheck (acct : String) (excludeId : Option Nat)
  | dupTxCheck (txref : String) (excludeId : Option Nat)
  | sigMkdir
  | sigWrite (attempt : Nat)
  | dbInsert
  | dbUpdate (id : Nat)
  | connRelease
deriving DecidableEq, Repr

/-- An HTTP response, restricted to the fields the endpoints set. -/
structure Resp where
  status : Nat
  ok : Bool
  error : Option String := none
  code : Option String := none
  details : List String := []
  id : Option Nat := none
  affectedRows : Option Nat := none
deriving DecidableEq, Repr

/-- Outcomes of the signature-store calls of one request: the generated
filename, the directory ensure and the two write attempts. -/
structure SigEnv where
  filename : String
  mkdirRes : Except String Unit
  write1 : Except String Unit
  write2 : Except String Unit
deriving Repr

/-- A database error, distinguishing the duplicate-key constraint violation
ER_DUP_ENTRY, which names the violated constraint, from other failures. -/
inductive DbErr where
  | dupEntry (constraint : String)
  | other (msg : String)
deriving DecidableEq, Repr

/-- Outcomes of the external calls of one request: connection acquisition,
table ensure, GET_LOCK, the two duplicate-check queries, the signature
store, the insert or update statement, and the insert timestamp. -/
structure Env where
  connErr : Option String
  ensureErr : Option String
  lockRes : Except String Bool
  dupAcctErr : Option String
  dupTxErr : Option String
  sig : SigEnv
  insertRes : Except DbErr Nat
  updateRes : Except DbErr Nat
  now : String
deriving Repr

/-- The PNG data-URL prefix tested by the create endpoint. -/
def pngPrefix : String := "data:image/png;base64,"

/-- Prefix test on strings, the anchored regex test of the endpoints. -/
def strHasPrefix (s pre : String) : Bool :=
  pre.data.isPrefixOf s.data

/-- JavaScript truthiness of the signature field: present and non-empty. -/
def sigTruthy : Option String → Bool
  | none => false
  | some s => s ≠ ""

/-- Line terminators, which the dot of the full signature regex in
saveSignatureToSharedFolder cannot match. -/
def isLineTerm (c : Char) : Bool :=
  c = '\n' || c = '\r' || c = Char.ofNat 0x2028 || c = Char.ofNat 0x2029

/-- The full-shape regex of saveSignatureToSharedFolder: the PNG prefix
followed by a non-empty run of non-line-terminator characters, returning the
captured content. -/
def pngContent (s : String) : Option String :=
  if strHasPrefix s pngPrefix then
    let content := (s.data.drop pngPrefix.data.length).asString
    if content ≠ "" ∧ content.data.all (fun c => ¬ isLineTerm c) then some content
    else none
  else none

/-- Result of saveSignatureToSharedFolder. -/
structure SigResult where
  signatureName : Option String
  warning : Option String
deriving DecidableEq, Repr

/-- Model of saveSignatureToSharedFolder: reject a malformed payload before
any storage access, ensure the directory, then attempt the write at most
twice, keeping the message of the last error. The startup guard of index.js
already excludes a local-path signature directory, so that branch is
statically dead here. -/
def saveSignature (e : SigEnv) (sig : String) : SigResult × List Ev :=
  match pngContent sig with
  | none => (⟨none, some "Invalid signature format"⟩, [])
  | some _ =>
    match e.mkdirRes with
    | .error msg => (⟨none, some msg⟩, [.sigMkdir])
    | .ok _ =>
      match e.write1 with
      | .ok _ => (⟨some e.filename, none⟩, [.sigMkdir, .sigWrite 1])
      | .error _ =>
        match e.write2 with
        | .ok _ => (⟨some e.filename, none⟩, [.sigMkdir, .sigWrite 1, .sigWrite 2])
        | .error m2 => (⟨none, some m2⟩, [.sigMkdir, .sigWrite 1, .sigWrite 2])

/-- The SQL key of the duplicate account check,
UPPER(REPLACE(account_number, space, empty)). -/
def sqlAcctKey (s : String) : String :=
  ((s.data.filter (fun c => c ≠ ' ')).map Char.toUpper).asString

/-- Rows visible to a duplicate check, after the optional id exclusion of
the update path. -/
def dupScope (db : List Row) (excludeId : Option Nat) : List Row :=
  db.filter (fun r => match excludeId with | none => true | some i => r.id ≠ i)

/-- COUNT of the duplicate account-number query. -/
def acctDupCount (db : List Row) (acct : String) (excludeId : Option Nat) : Nat :=
  (dupScope db excludeId).countP (fun r => sqlAcctKey r.account_number == acct)

/-- COUNT of the duplicate transaction-reference query. -/
def txDupCount (db : List Row) (txref : String) (excludeId : Option Nat) : Nat :=
  (dupScope db excludeId).countP (fun r => r.transaction_ref == txref)

/-- The row built by the insert statement of the create endpoint. -/
def mkRow (newId : Nat) (d : OcrData) (sigName : Option String) (now : String) : Row :=
  { id := newId
    transaction_ref := d.transactionRef
    account_number := d.accountNumber
    customer_name := d.customerName
    scanner_name := d.scannerName
    company := d.company
    date := d.date
    electricity_bill := d.electricityBill
    amount_due := d.amountDue
    total_sales := d.totalSales
    signature_name := sigName
    created_at := now }

/-- The field assignments of the UPDATE statement of the update endpoint:
exactly the nine listed columns, leaving id, signature_name and created_at
untouched. -/
def applyUpdate (d : OcrData) (r : Row) : Row :=
  { r with
    transaction_ref := d.transactionRef
    account_number := d.accountNumber
    customer_name := d.customerName
    scanner_name := d.scannerName
    company := d.company
    date := d.date
    electricity_bill := d.electricityBill
    amount_due := d.amountDue
    total_sales := d.totalSales }

/-- Outcome of one handler run: the response, the effect trace and the
resulting record store. -/
structure HResult where
  resp : Resp
  trace : List Ev
  db : List Row
deriving DecidableEq, Repr

/-- Shorthand for the error responses of the endpoints. -/
def errResp (status : Nat) (err : String) (code : Option String)
    (details : List String) : Resp :=
  { status := status, ok := false, error := some err, code := code, details := details }

/-- The fallback applied to an absent or empty signature warning. -/
def warningText (w : Option String) : String :=
  match w with
  | some s => if s = "" then "Unknown signature write failure" else s
  | none => "Unknown signature write failure"

/-- Model of the POST /api/ocr-data handler: signature presence and prefix
checks, validation, connection and table setup, account lock with bounded
wait, the two duplicate checks, signature save, insert, and the finally
block that releases the lock exactly when it was acquired. -/
def createHandler (env : Env) (db : List Row) (p : Payload) : HResult :=
  if sigTruthy p.signature = false then
    ⟨errResp 400 "Signature is required" (some "SIGNATURE_REQUIRED")
      ["No signature payload was received by the server."], [], db⟩
  else
    let sigStr := (p.signature.getD "")
    if ¬ strHasPrefix sigStr pngPrefix = true then
      ⟨errResp 400 "Invalid signature format" (some "INVALID_SIGNATURE_FORMAT")
        ["Signature must be a PNG data URL (data:image/png;base64,...)"], [], db⟩
    else
      let v := validateOcrPayload p
      if v.errors ≠ [] then
        ⟨errResp 400 "Validation failed" (some "VALIDATION_ERROR") v.errors, [], db⟩
      else
        match env.connErr with
        | some e => ⟨errResp 500 e none [], [], db⟩
        | none =>
          match env.ensureErr with
          | some e => ⟨errResp 500 e none [], [.ensureTable, .connRelease], db⟩
          | none =>
            match env.lockRes with
            | .error e => ⟨errResp 500 e none [], [.ensureTable, .connRelease], db⟩
            | .ok false =>
              ⟨errResp 429
                "A save is already in progress for this account number. Please try again."
                (some "ACCOUNT_LOCK_TIMEOUT") [], [.ensureTable, .connRelease], db⟩
            | .ok true =>
              let key := "ocr-account:" ++ v.data.accountNumber
              let fin : List Ev := [.lockRelease key, .connRelease]
              let evA : List Ev :=
                [.ensureTable, .lockAcquire key, .dupAccountCheck v.data.accountNumber none]
              match env.dupAcctErr with
              | some e => ⟨errResp 500 e none [], evA ++ fin, db⟩
              | none =>
                if 0 < acctDupCount db v.data.accountNumber none then
                  ⟨errResp 409 "Account number already exists in database"
                    (some "DUPLICATE_ACCOUNT_NUMBER") [], evA ++ fin, db⟩
                else
                  let evT := evA ++ [.dupTxCheck v.data.transactionRef none]
                  match env.dupTxErr with
                  | some e => ⟨errResp 500 e none [], evT ++ fin, db⟩
                  | none =>
                    if 0 < txDupCount db v.data.transactionRef none then
                      ⟨errResp 409 "Transaction reference already exists in database"
                        (some "DUPLICATE_TRANSACTION_REFERENCE") [], evT ++ fin, db⟩
                    else
                      let save := saveSignature env.sig sigStr
                      let evS := evT ++ save.2
                      match save.1.signatureName with
                      | none =>
                        ⟨errResp 503 "Failed to save signature image to network shared folder"
                          (some "SIGNATURE_SAVE_FAILED") [warningText save.1.warning],
                          evS ++ fin, db⟩
                      | some name =>
                        match env.insertRes with
                        | .ok newId =>
                          ⟨{ status := 200, ok := true, id := some newId },
                            evS ++ [.dbInsert] ++ fin,
                            db ++ [mkRow newId v.data (some name) env.now]⟩
                        | .error (.dupEntry _) =>
                          ⟨errResp 409 "Account number already exists in database"
                            (some "DUPLICATE_ACCOUNT_NUMBER") [],
                            evS ++ [.dbInsert] ++ fin, db⟩
                        | .error (.other m) =>
                          ⟨errResp 500 m none [], evS ++ [.dbInsert] ++ fin, db⟩

/-- Model of the PUT /api/ocr-data/:id handler: id check, validation,
account lock, the two duplicate checks excluding the own id, the UPDATE of
the nine data columns, and the guaranteed lock release. -/
def updateHandler (env : Env) (db : List Row) (idParam : Nat) (p : Payload) : HResult :=
  if idParam = 0 then
    ⟨errResp 400 "Invalid id" none [], [], db⟩
  else
    let v := validateOcrPayload p
    if v.errors ≠ [] then
      ⟨errResp 400 "Validation failed" (some "VALIDATION_ERROR") v.errors, [], db⟩
    else
      match env.connErr with
      | some e => ⟨errResp 500 e none [], [], db⟩
      | none =>
        match env.ensureErr with
        | some e => ⟨errResp 500 e none [], [.ensureTable, .connRelease], db⟩
        | none =>
          match env.lockRes with
          | .error e => ⟨errResp 500 e none [], [.ensureTable, .connRelease], db⟩
          | .ok false =>
            ⟨errResp 429
              "An update is already in progress for this account number. Please try again."
              (some "ACCOUNT_LOCK_TIMEOUT") [], [.ensureTable, .connRelease], db⟩
          | .ok true =>
            let key := "ocr-account:" ++ v.data.accountNumber
            let fin : List Ev := [.lockRelease key, .connRelease]
            let evA : List Ev :=
              [.ensureTable, .lockAcquire key,
               .dupAccountCheck v.data.accountNumber (some idParam)]
            match env.dupAcctErr with
            | some e => ⟨errResp 500 e none [], evA ++ fin, db⟩
            | none =>
              if 0 < acctDupCount db v.data.accountNumber (some idParam) then
                ⟨errResp 409 "Account number already exists in database"
                  (some "DUPLICATE_ACCOUNT_NUMBER") [], evA ++ fin, db⟩
              else
                let evT := evA ++ [.dupTxCheck v.data.transactionRef (some idParam)]
                match env.dupTxErr with
                | some e => ⟨errResp 500 e none [], evT ++ fin, db⟩
                | none =>
                  if 0 < txDupCount db v.data.transactionRef (some idParam) then
                    ⟨errResp 409 "Transaction reference already exists in database"
                      (some "DUPLICATE_TRANSACTION_REFERENCE") [], evT ++ fin, db⟩
                  else
                    match env.updateRes with
                    | .ok n =>
                      ⟨{ status := 200, ok := true, affectedRows := some n },
                        evT ++ [.dbUpdate idParam] ++ fin,
                        db.map (fun r => if r.id = idParam then applyUpdate v.data r else r)⟩
                    | .error (.dupEntry _) =>
                      ⟨errResp 409 "Account number already exists in database"
                        (some "DUPLICATE_ACCOUNT_NUMBER") [],
                        evT ++ [.dbUpdate idParam] ++ fin, db⟩
                    | .error (.other m) =>
                      ⟨errResp 500 m none [], evT ++ [.dbUpdate idParam] ++ fin, db⟩

/-! Trace predicates used to state the lock and write-ordering properties. -/

/-- Events that write to the record store or the signature store. -/
def isWriteEv : Ev → Bool
  | .sigWrite _ => true
  | .dbInsert => true
  | .dbUpdate _ => true
  | _ => false

/-- Duplicate-check query events. -/
def isDupCheckEv : Ev → Bool
  | .dupAccountCheck _ _ => true
  | .dupTxCheck _ _ => true
  | _ => false

/-- Lock acquisition events. -/
def isLockAcquireEv : Ev → Bool
  | .lockAcquire _ => true
  | _ => false

/-- Signature write-attempt events. -/
def isSigWriteEv : Ev → Bool
  | .sigWrite _ => true
  | _ => false

/-- True when no event satisfying q occurs before the first event satisfying
p, so that every q event in the trace is preceded by a p event. -/
def guardedBy (p q : Ev → Bool) : List Ev → Bool
  | [] => true
  | e :: rest => if q e then false else if p e then true else guardedBy p q rest

/-! Claim-side auxiliary predicates and concrete inputs. -/

/-- Claim-side predicate of C5: the string begins with a letter. -/
def startsWithLetterPrefix (s : String) : Bool :=
  match s.data with
  | [] => false
  | c :: _ => c.isAlpha

/-- A fully valid payload except that its account number is plain digits
with no letter prefix. -/
def c5Payload : Payload :=
  { transactionRef := some "123456789012345"
    accountNumber := some "123456"
    customerName := some "Juan Cruz"
    scannerName := some "Ana"
    date := some "Jan 1, 2025"
    electricityBill := some "100" }

/-- A fully valid payload, including a well-formed signature. -/
def goodPayload : Payload :=
  { transactionRef := some "123456789012345"
    accountNumber := some "B123456789012"
    customerName := some "Juan Cruz"
    scannerName := some "Ana"
    date := some "Jan 1, 2025"
    electricityBill := some "100"
    signature := some "data:image/png;base64,AAAA" }

/-- The normalized record of goodPayload. -/
def goodData : OcrData :=
  { transactionRef := "123456789012345"
    accountNumber := "B123456789012"
    customerName := "Juan Cruz"
    scannerName := "Ana"
    date := "Jan 1, 2025"
    company := none
    electricityBill := .num 100
    amountDue := none
    totalSales := none }

/-- A payload with a well-formed signature whose bill amount is absent, so
exactly one validation rule is violated. -/
def badPayload : Payload :=
  { goodPayload with electricityBill := none }

/-- Signature-store outcomes in which every call succeeds. -/
def okSigEnv : SigEnv :=
  ⟨"signature_1_a.png", .ok (), .ok (), .ok ()⟩

/-- An environment in which every external call succeeds. -/
def okEnv : Env :=
  ⟨none, none, .ok true, none, none, okSigEnv, .ok 7, .ok 1, "t0"⟩

/-- Lock release events. -/
def isLockReleaseEv : Ev → Bool
  | .lockRelease _ => true
  | _ => false

/-- One independently evaluable field rule of the validator: a message and
a predicate of the raw payload. -/
structure FieldRule where
  msg : String
  violated : Payload → Bool

/-- The field rules of validateOcrPayload in source order, each recomputing
its own normalization from the payload so the rules are independent of one
another; the bill field carries two mutually exclusive rules, absence and
the minimum threshold. -/
def ruleList : List FieldRule :=
  [ ⟨"Transaction Reference is required",
      fun p => decide (normalizeTransactionRef p.transactionRef = "")⟩,
    ⟨"Transaction reference must have at least 15 digits",
      fun p => decide (normalizeTransactionRef p.transactionRef ≠ "" ∧
        countDigits (normalizeTransactionRef p.transactionRef) < 15)⟩,
    ⟨"Date is required", fun p => decide (normalizeText p.date = "")⟩,
    ⟨"Customer Name is required", fun p => decide (normalizeText p.customerName = "")⟩,
    ⟨"Customer Name must contain valid text only",
      fun p => decide (normalizeText p.customerName ≠ "" ∧
        ¬ matchesNameShape (normalizeText p.customerName) = true)⟩,
    ⟨"Account Number is required",
      fun p => decide (normalizeAccountNumber p.accountNumber = "")⟩,
    ⟨"Account number must contain at least 6 digits",
      fun p => decide (normalizeAccountNumber p.accountNumber ≠ "" ∧
        ¬ isSixPlusDigits (dropLeadingB (normalizeAccountNumber p.accountNumber)) = true)⟩,
    ⟨"Scanner Name is required", fun p => decide (normalizeText p.scannerName = "")⟩,
    ⟨"Amount (Bill) is required",
      fun p => match parseMoney p.electricityBill with
        | .null => true
        | _ => false⟩,
    ⟨"Bill amount must be at least 50",
      fun p => match parseMoney p.electricityBill with
        | .null => false
        | .nan => true
        | .num q => decide (q < 50)⟩,
    ⟨"Amount Due must be a valid number",
      fun p => decide (parseMoney p.amountDue = MoneyVal.nan)⟩,
    ⟨"Total Sales must be a valid number",
      fun p => decide (parseMoney p.totalSales = MoneyVal.nan)⟩ ]

/-- Case-insensitive, whitespace-insensitive equality of account numbers,
the comparison the claims describe for the duplicate account check. -/
def acctInsensitiveEq (a b : String) : Bool :=
  normalizeAccountNumber (some a) == normalizeAccountNumber (some b)

/-- The all-success environment with a lock that cannot be acquired. -/
def lockFailEnv : Env :=
  { okEnv with lockRes := .ok false }

/-- Signature-store outcomes in which both write attempts fail. -/
def sigFailSigEnv : SigEnv :=
  ⟨"signature_1_a.png", .ok (), .error "EACCES", .error "ETIMEDOUT"⟩

/-- The all-success environment with a twice-failing signature write. -/
def sigFailEnv : Env :=
  { okEnv with sig := sigFailSigEnv }

/-- The all-success environment whose insert raises ER_DUP_ENTRY on the
transaction-reference constraint. -/
def dupInsertEnv : Env :=
  { okEnv with insertRes := .error (.dupEntry "transaction_ref") }

/-- The all-success environment whose update raises ER_DUP_ENTRY on the
transaction-reference constraint. -/
def dupUpdateEnv : Env :=
  { okEnv with updateRes := .error (.dupEntry "transaction_ref") }

/-- The valid payload with a signature that is exactly the PNG prefix with
empty content. -/
def emptySigPayload : Payload :=
  { goodPayload with signature := some "data:image/png;base64," }

/-- The valid payload with a signature that is not a PNG data URL at all. -/
def badSigPayload : Payload :=
  { goodPayload with signature := some "notaurl" }

/-- Claim-side predicate of C6: the exact PNG data-URL shape, the prefix
followed by non-empty content. -/
def specPngShape (s : String) : Bool :=
  strHasPrefix s pngPrefix && decide (pngPrefix.data.length < s.data.length)

/-- A stored row sharing the account number of goodPayload. -/
def dupAcctRow : Row :=
  mkRow 5 goodData (some "sig0.png") "t0"

/-- A stored row with a different account number but the transaction
reference of goodPayload. -/
def dupTxRow : Row :=
  mkRow 5 { goodData with accountNumber := "B999999999999" } (some "sig0.png") "t0"

end Aneco

namespace Aneco

/-- Evaluation of parseMoney on the literal 100 used by concrete payloads. -/
theorem parseMoney_100 : parseMoney (some "100") = MoneyVal.num 100 := by
  have h1 : jsParseFloatParts (jsTrimList ("100".data.filter (fun c => c ≠ ','))) =
      some (1, 100, 0, 0, 0) := by decide
  unfold parseMoney
  dsimp only
  rw [if_neg (by decide)]
  unfold jsParseFloat
  rw [h1]
  unfold ratOfParts
  dsimp only [Option.bind]
  rw [if_neg (by norm_num)]
  norm_num

/-- Full evaluation of the validator on goodPayload. -/
theorem validate_goodPayload : validateOcrPayload goodPayload = ⟨[], goodData⟩ := by
  unfold validateOcrPayload goodPayload
  dsimp only
  rw [parseMoney_100]
  dsimp only
  rw [if_neg (by norm_num : ¬ (100 : ℚ) < 50)]
  decide

/-- Full evaluation of the validator on c5Payload. -/
theorem validate_c5Payload :
    validateOcrPayload c5Payload = ⟨[], { goodData with accountNumber := "123456" }⟩ := by
  unfold validateOcrPayload c5Payload
  dsimp only
  rw [parseMoney_100]
  dsimp only
  rw [if_neg (by norm_num : ¬ (100 : ℚ) < 50)]
  decide

/-- C7: in transaction-reference extraction, after the digit-confusable
correction map is applied, a corrected run longer than 20 digits is
truncated to its first 15 digits, and a corrected run of at most 20 digits
is kept unchanged; the extraction pipeline applies exactly this step to the
captured run. -/
theorem C7_ref_truncation (s : String) :
    (∀ text : String,
        parseOCRTextTransRef text = (findTransCapture text).map refFromCapture) ∧
    (20 < (cleanOCRNumber s).data.length →
        refFromCapture s = ((cleanOCRNumber s).data.take 15).asString) ∧
    ((cleanOCRNumber s).data.length ≤ 20 → refFromCapture s = cleanOCRNumber s) := by
  refine ⟨fun _ => rfl, ?_, ?_⟩ <;> intro h
  · unfold refFromCapture
    dsimp only
    rw [if_pos h]
  · unfold refFromCapture
    dsimp only
    rw [if_neg (by omega)]

/-- Witness for C7 at a 21-digit run, which is truncated to 15 digits, and
at a 20-digit run, which is kept whole. -/
theorem C7_ref_truncation_witness :
    refFromCapture "123456789012345678901" = "123456789012345" ∧
    refFromCapture "12345678901234567890" = "12345678901234567890" := by
  constructor
  · exact ((C7_ref_truncation "123456789012345678901").2.1 (by decide)).trans (by decide)
  · exact ((C7_ref_truncation "12345678901234567890").2.2 (by decide)).trans (by decide)

/-- Counterexample to C8: the input of the claim contains the letter Z and
fifteen letters O, so the corrected reference has sixteen characters, not
the fifteen the claim expects. -/
theorem C8_counterexample :
    parseOCRTextTransRef "Trans Ref: ZOOOOOOOOOOOOOOO" = some "2000000000000000" ∧
    some "2000000000000000" ≠ some "200000000000000" := by
  exact ⟨by decide, by decide⟩

/-- C8 amended: the field extractor applied to the claimed input produces a
transactionRef of "2000000000000000", the Z corrected to 2 and each of the
fifteen letters O corrected to 0. -/
theorem C8_extraction_example :
    parseOCRTextTransRef "Trans Ref: ZOOOOOOOOOOOOOOO" = some "2000000000000000" := by
  decide

/-- Counterexample to C5: the account number 123456 passes validation even
though it starts with a digit rather than a letter prefix. -/
theorem C5_counterexample :
    (validateOcrPayload c5Payload).errors = [] ∧
    startsWithLetterPrefix (validateOcrPayload c5Payload).data.accountNumber = false := by
  refine ⟨?_, by decide⟩
  rw [validate_c5Payload]

/-- C5 amended: every account number that passes validation is, after
normalization, nonempty and consists of at least six digits, optionally
preceded by a single letter B. -/
theorem C5_account_shape (p : Payload)
    (h : (validateOcrPayload p).errors = []) :
    (validateOcrPayload p).data.accountNumber ≠ "" ∧
    isSixPlusDigits (dropLeadingB (validateOcrPayload p).data.accountNumber) = true := by
  have hacc : (validateOcrPayload p).data.accountNumber =
      normalizeAccountNumber p.accountNumber := rfl
  rw [hacc]
  unfold validateOcrPayload at h
  dsimp only at h
  simp only [List.append_eq_nil] at h
  obtain ⟨⟨⟨⟨⟨⟨⟨⟨⟨⟨h1, h2⟩, h3⟩, h4⟩, h5⟩, h6⟩, h7⟩, h8⟩, h9⟩, h10⟩, h11⟩ := h
  have hne : normalizeAccountNumber p.accountNumber ≠ "" := by
    intro he
    rw [if_pos he] at h6
    cases h6
  have hd : isSixPlusDigits (dropLeadingB (normalizeAccountNumber p.accountNumber)) = true := by
    by_contra hnd
    rw [if_pos ⟨hne, hnd⟩] at h7
    cases h7
  exact ⟨hne, hd⟩

/-- Witness for C5 amended at a payload whose account number is B followed
by twelve digits. -/
theorem C5_account_shape_witness :
    (validateOcrPayload goodPayload).data.accountNumber ≠ "" ∧
    isSixPlusDigits (dropLeadingB
      (validateOcrPayload goodPayload).data.accountNumber) = true := by
  exact C5_account_shape goodPayload (by rw [validate_goodPayload])

end Aneco

namespace Aneco

/-- No lock-acquisition event appears among the signature-store events. -/
theorem lockAcquire_not_mem_save (e : SigEnv) (s : String) (k : String) :
    Ev.lockAcquire k ∉ (saveSignature e s).2 := by
  obtain ⟨fn, mk, w1, w2⟩ := e
  unfold saveSignature
  cases hpc : pngContent s <;> cases mk <;> cases w1 <;> cases w2 <;> simp

set_option maxHeartbeats 1000000 in
/-- Every duplicate-check or write event of the create handler is preceded
by a lock acquisition. -/
theorem createHandler_guarded (env : Env) (db : List Row) (p : Payload) :
    guardedBy isLockAcquireEv (fun e => isDupCheckEv e || isWriteEv e)
      (createHandler env db p).trace = true := by
  unfold createHandler
  dsimp only
  repeat' split
  all_goals rfl

set_option maxHeartbeats 1000000 in
/-- Every duplicate-check or write event of the update handler is preceded
by a lock acquisition. -/
theorem updateHandler_guarded (env : Env) (db : List Row) (idp : Nat) (p : Payload) :
    guardedBy isLockAcquireEv (fun e => isDupCheckEv e || isWriteEv e)
      (updateHandler env db idp p).trace = true := by
  unfold updateHandler
  dsimp only
  repeat' split
  all_goals rfl

set_option maxHeartbeats 1000000 in
/-- Whenever the create handler acquired the lock, it also released it. -/
theorem createHandler_release (env : Env) (db : List Row) (p : Payload) (k : String)
    (h : Ev.lockAcquire k ∈ (createHandler env db p).trace) :
    Ev.lockRelease k ∈ (createHandler env db p).trace := by
  revert h
  unfold createHandler
  dsimp only
  repeat' split
  all_goals intro h
  all_goals simp_all [lockAcquire_not_mem_save]

set_option maxHeartbeats 1000000 in
/-- Whenever the update handler acquired the lock, it also released it. -/
theorem updateHandler_release (env : Env) (db : List Row) (idp : Nat) (p : Payload)
    (k : String)
    (h : Ev.lockAcquire k ∈ (updateHandler env db idp p).trace) :
    Ev.lockRelease k ∈ (updateHandler env db idp p).trace := by
  revert h
  unfold updateHandler
  dsimp only
  repeat' split
  all_goals intro h
  all_goals simp_all

set_option maxHeartbeats 1000000 in
/-- A lock-acquisition failure makes the create handler answer 429 with the
lock-timeout code, write nothing and leave the store unchanged. -/
theorem createHandler_timeout (env : Env) (db : List Row) (p : Payload)
    (hs : sigTruthy p.signature = true)
    (hp : strHasPrefix (p.signature.getD "") pngPrefix = true)
    (hv : (validateOcrPayload p).errors = [])
    (hce : env.connErr = none) (hee : env.ensureErr = none)
    (hlr : env.lockRes = Except.ok false) :
    (createHandler env db p).resp.status = 429 ∧
    (createHandler env db p).resp.code = some "ACCOUNT_LOCK_TIMEOUT" ∧
    (createHandler env db p).trace.all (fun e => !isWriteEv e) = true ∧
    (createHandler env db p).db = db := by
  obtain ⟨ce, ee, lr, dae, dte, sg, ir, ur, nw⟩ := env
  dsimp only at hce hee hlr
  subst hce; subst hee; subst hlr
  unfold createHandler
  dsimp only
  rw [hs, hp, hv]
  rw [if_neg (by decide), if_neg (by decide), if_neg (by decide)]
  exact ⟨rfl, rfl, rfl, rfl⟩

set_option maxHeartbeats 1000000 in
/-- A lock-acquisition failure makes the update handler answer 429 with the
lock-timeout code, write nothing and leave the store unchanged. -/
theorem updateHandler_timeout (env : Env) (db : List Row) (idp : Nat) (p : Payload)
    (hid : idp ≠ 0)
    (hv : (validateOcrPayload p).errors = [])
    (hce : env.connErr = none) (hee : env.ensureErr = none)
    (hlr : env.lockRes = Except.ok false) :
    (updateHandler env db idp p).resp.status = 429 ∧
    (updateHandler env db idp p).resp.code = some "ACCOUNT_LOCK_TIMEOUT" ∧
    (updateHandler env db idp p).trace.all (fun e => !isWriteEv e) = true ∧
    (updateHandler env db idp p).db = db := by
  obtain ⟨ce, ee, lr, dae, dte, sg, ir, ur, nw⟩ := env
  dsimp only at hce hee hlr
  subst hce; subst hee; subst hlr
  unfold updateHandler
  dsimp only
  rw [if_neg hid, hv]
  rw [if_neg (by decide)]
  exact ⟨rfl, rfl, rfl, rfl⟩

end Aneco

namespace Aneco

/-- C1: for every create or update submission, the advisory account lock is
acquired before any duplicate check or write; a lock-acquisition failure
makes the submission fail with ACCOUNT_LOCK_TIMEOUT and HTTP 429 with
nothing written; and whenever the lock was acquired it is released on every
exit path, for every environment outcome. -/
theorem C1_account_lock_protocol (env : Env) (db : List Row) (p : Payload) (idp : Nat) :
    (guardedBy isLockAcquireEv (fun e => isDupCheckEv e || isWriteEv e)
        (createHandler env db p).trace = true ∧
      guardedBy isLockAcquireEv (fun e => isDupCheckEv e || isWriteEv e)
        (updateHandler env db idp p).trace = true) ∧
    (∀ k, Ev.lockAcquire k ∈ (createHandler env db p).trace →
        Ev.lockRelease k ∈ (createHandler env db p).trace) ∧
    (∀ k, Ev.lockAcquire k ∈ (updateHandler env db idp p).trace →
        Ev.lockRelease k ∈ (updateHandler env db idp p).trace) ∧
    (env.lockRes = Except.ok false →
      (sigTruthy p.signature = true →
          strHasPrefix (p.signature.getD "") pngPrefix = true →
          (validateOcrPayload p).errors = [] →
          env.connErr = none → env.ensureErr = none →
          (createHandler env db p).resp.status = 429 ∧
          (createHandler env db p).resp.code = some "ACCOUNT_LOCK_TIMEOUT" ∧
          (createHandler env db p).trace.all (fun e => !isWriteEv e) = true ∧
          (createHandler env db p).db = db) ∧
      (idp ≠ 0 →
          (validateOcrPayload p).errors = [] →
          env.connErr = none → env.ensureErr = none →
          (updateHandler env db idp p).resp.status = 429 ∧
          (updateHandler env db idp p).resp.code = some "ACCOUNT_LOCK_TIMEOUT" ∧
          (updateHandler env db idp p).trace.all (fun e => !isWriteEv e) = true ∧
          (updateHandler env db idp p).db = db)) := by
  refine ⟨⟨createHandler_guarded env db p, updateHandler_guarded env db idp p⟩,
    fun k => createHandler_release env db p k,
    fun k => updateHandler_release env db idp p k,
    fun hlr => ⟨fun hs hp hv hce hee => createHandler_timeout env db p hs hp hv hce hee hlr,
      fun hid hv hce hee => updateHandler_timeout env db idp p hid hv hce hee hlr⟩⟩

set_option maxRecDepth 8000 in
/-- Witness for C1: with a lock that cannot be acquired, the concrete valid
payload is refused with the lock-timeout code on both endpoints. -/
theorem C1_account_lock_protocol_witness :
    (createHandler lockFailEnv [] goodPayload).resp.code = some "ACCOUNT_LOCK_TIMEOUT" ∧
    (updateHandler lockFailEnv [] 1 goodPayload).resp.code = some "ACCOUNT_LOCK_TIMEOUT" := by
  have h := (C1_account_lock_protocol lockFailEnv [] goodPayload 1).2.2.2 rfl
  exact ⟨(h.1 (by decide) (by decide) (by rw [validate_goodPayload]) rfl rfl).2.1,
    (h.2 (by decide) (by rw [validate_goodPayload]) rfl rfl).2.1⟩

end Aneco


namespace Aneco

/-- Unfolding step for a filtered rule list. -/
theorem filterMap_cons (r : FieldRule) (rs : List FieldRule) (p : Payload) :
    ((r :: rs).filter (fun x => x.violated p)).map FieldRule.msg =
      (if r.violated p = true then [r.msg] else []) ++
        ((rs.filter (fun x => x.violated p)).map FieldRule.msg) := by
  by_cases h : r.violated p = true <;> simp [List.filter_cons, h]

set_option maxHeartbeats 1000000 in
/-- The error list of the validator is exactly the message of every violated
rule of the independent rule list, in order. -/
theorem validate_errors_eq_rules (p : Payload) :
    (validateOcrPayload p).errors =
      (ruleList.filter (fun r => r.violated p)).map FieldRule.msg := by
  unfold validateOcrPayload ruleList
  dsimp only
  simp only [filterMap_cons, List.filter_nil, List.map_nil, List.append_nil,
    decide_eq_true_eq, List.append_assoc]
  cases hm : parseMoney p.electricityBill <;> simp [hm]

set_option maxHeartbeats 1000000 in
/-- A nonempty validation error list makes the create handler reject with
the full list and no side effects. -/
theorem createHandler_validation_reject (env : Env) (db : List Row) (p : Payload)
    (hs : sigTruthy p.signature = true)
    (hp : strHasPrefix (p.signature.getD "") pngPrefix = true)
    (hv : (validateOcrPayload p).errors ≠ []) :
    (createHandler env db p).resp.status = 400 ∧
    (createHandler env db p).resp.code = some "VALIDATION_ERROR" ∧
    (createHandler env db p).resp.details = (validateOcrPayload p).errors ∧
    (createHandler env db p).trace = [] ∧
    (createHandler env db p).db = db := by
  unfold createHandler
  dsimp only
  rw [hs, hp]
  rw [if_neg (by decide), if_neg (by decide), if_pos hv]
  exact ⟨rfl, rfl, rfl, rfl, rfl⟩

set_option maxHeartbeats 1000000 in
/-- A nonempty validation error list makes the update handler reject with
the full list and no side effects. -/
theorem updateHandler_validation_reject (env : Env) (db : List Row) (idp : Nat)
    (p : Payload) (hid : idp ≠ 0)
    (hv : (validateOcrPayload p).errors ≠ []) :
    (updateHandler env db idp p).resp.status = 400 ∧
    (updateHandler env db idp p).resp.code = some "VALIDATION_ERROR" ∧
    (updateHandler env db idp p).resp.details = (validateOcrPayload p).errors ∧
    (updateHandler env db idp p).trace = [] ∧
    (updateHandler env db idp p).db = db := by
  unfold updateHandler
  dsimp only
  rw [if_neg hid, if_pos hv]
  exact ⟨rfl, rfl, rfl, rfl, rfl⟩

/-- C4: validation evaluates every field rule independently and collects
all violations, producing either an empty error list or one message per
violated rule; any nonempty list rejects the submission with code
VALIDATION_ERROR and the full list, with no side effects performed, on both
the create and the update endpoint. -/
theorem C4_validation_collects_all (p : Payload) (env : Env) (db : List Row) (idp : Nat) :
    ((validateOcrPayload p).errors =
        (ruleList.filter (fun r => r.violated p)).map FieldRule.msg) ∧
    ((validateOcrPayload p).errors ≠ [] →
      (sigTruthy p.signature = true →
          strHasPrefix (p.signature.getD "") pngPrefix = true →
          (createHandler env db p).resp.status = 400 ∧
          (createHandler env db p).resp.code = some "VALIDATION_ERROR" ∧
          (createHandler env db p).resp.details = (validateOcrPayload p).errors ∧
          (createHandler env db p).trace = [] ∧
          (createHandler env db p).db = db) ∧
      (idp ≠ 0 →
          (updateHandler env db idp p).resp.status = 400 ∧
          (updateHandler env db idp p).resp.code = some "VALIDATION_ERROR" ∧
          (updateHandler env db idp p).resp.details = (validateOcrPayload p).errors ∧
          (updateHandler env db idp p).trace = [] ∧
          (updateHandler env db idp p).db = db)) := by
  exact ⟨validate_errors_eq_rules p,
    fun hv => ⟨fun hs hp => createHandler_validation_reject env db p hs hp hv,
      fun hid => updateHandler_validation_reject env db idp p hid hv⟩⟩

set_option maxRecDepth 8000 in
/-- Witness for C4 at a payload missing its bill amount: one rule fires and
both endpoints reject with the single-message list. -/
theorem C4_validation_collects_all_witness :
    (validateOcrPayload badPayload).errors ≠ [] ∧
    (createHandler okEnv [] badPayload).resp.code = some "VALIDATION_ERROR" ∧
    (createHandler okEnv [] badPayload).resp.details = (validateOcrPayload badPayload).errors ∧
    (updateHandler okEnv [] 1 badPayload).resp.code = some "VALIDATION_ERROR" := by
  have h := (C4_validation_collects_all badPayload okEnv [] 1).2 (by decide)
  have hc := h.1 (by decide) (by decide)
  have hu := h.2 (by decide)
  exact ⟨by decide, hc.2.1, hc.2.2.1, hu.2.1⟩

end Aneco

namespace Aneco

/-- The signature store attempts the write at most twice. -/
theorem saveSignature_write_count (e : SigEnv) (s : String) :
    (saveSignature e s).2.countP isSigWriteEv ≤ 2 := by
  obtain ⟨fn, mk, w1, w2⟩ := e
  unfold saveSignature
  cases hpc : pngContent s <;> cases mk <;> cases w1 <;> cases w2 <;>
    simp [List.countP_cons, List.countP_nil, isSigWriteEv]

set_option maxHeartbeats 1000000 in
/-- Any run of the create handler performs at most two signature write
attempts. -/
theorem createHandler_sigwrite_count (env : Env) (db : List Row) (p : Payload) :
    (createHandler env db p).trace.countP isSigWriteEv ≤ 2 := by
  unfold createHandler
  dsimp only
  repeat' split
  all_goals simp [List.countP_append, List.countP_cons, List.countP_nil, isSigWriteEv]
  all_goals exact saveSignature_write_count _ _

end Aneco

namespace Aneco

set_option maxHeartbeats 1000000 in
/-- When the create handler reaches the signature-save step and both write
attempts fail, it answers 503 SIGNATURE_SAVE_FAILED carrying the second
I/O error, and no record row is inserted. -/
theorem createHandler_sig_double_failure (env : Env) (db : List Row) (p : Payload)
    (cont e1 e2 : String)
    (hs : sigTruthy p.signature = true)
    (hp : strHasPrefix (p.signature.getD "") pngPrefix = true)
    (hv : (validateOcrPayload p).errors = [])
    (hcont : pngContent (p.signature.getD "") = some cont)
    (hce : env.connErr = none) (hee : env.ensureErr = none)
    (hlr : env.lockRes = Except.ok true)
    (hdae : env.dupAcctErr = none) (hdte : env.dupTxErr = none)
    (hda : acctDupCount db (validateOcrPayload p).data.accountNumber none = 0)
    (hdt : txDupCount db (validateOcrPayload p).data.transactionRef none = 0)
    (hmk : env.sig.mkdirRes = Except.ok ())
    (hw1 : env.sig.write1 = Except.error e1)
    (hw2 : env.sig.write2 = Except.error e2)
    (he2 : e2 ≠ "") :
    (createHandler env db p).resp.status = 503 ∧
    (createHandler env db p).resp.code = some "SIGNATURE_SAVE_FAILED" ∧
    (createHandler env db p).resp.details = [e2] ∧
    Ev.dbInsert ∉ (createHandler env db p).trace ∧
    (createHandler env db p).db = db := by
  obtain ⟨ce, ee, lr, dae, dte, ⟨fn, mk, w1, w2⟩, ir, ur, nw⟩ := env
  dsimp only at hce hee hlr hdae hdte hmk hw1 hw2
  subst hce; subst hee; subst hlr; subst hdae; subst hdte
  subst hmk; subst hw1; subst hw2
  unfold createHandler saveSignature
  dsimp only
  rw [hs, hp, hv, hcont]
  rw [if_neg (by decide), if_neg (by decide), if_neg (by decide)]
  rw [hda, hdt]
  rw [if_neg (by decide), if_neg (by decide)]
  dsimp only
  refine ⟨rfl, rfl, ?_, ?_, rfl⟩
  · simp [warningText, he2, errResp]
  · simp

end Aneco

namespace Aneco

/-- C2: every create submission attempts the signature write at most twice,
both at the signature store and in any full handler run; if both attempts
fail the submission returns SIGNATURE_SAVE_FAILED with the underlying I/O
error in the error detail and no record row is inserted. -/
theorem C2_signature_save_retry (env : Env) (db : List Row) (p : Payload) :
    ((saveSignature env.sig (p.signature.getD "")).2.countP isSigWriteEv ≤ 2) ∧
    ((createHandler env db p).trace.countP isSigWriteEv ≤ 2) ∧
    (∀ cont e1 e2 : String,
      sigTruthy p.signature = true →
      strHasPrefix (p.signature.getD "") pngPrefix = true →
      (validateOcrPayload p).errors = [] →
      pngContent (p.signature.getD "") = some cont →
      env.connErr = none → env.ensureErr = none →
      env.lockRes = Except.ok true →
      env.dupAcctErr = none → env.dupTxErr = none →
      acctDupCount db (validateOcrPayload p).data.accountNumber none = 0 →
      txDupCount db (validateOcrPayload p).data.transactionRef none = 0 →
      env.sig.mkdirRes = Except.ok () →
      env.sig.write1 = Except.error e1 →
      env.sig.write2 = Except.error e2 →
      e2 ≠ "" →
      (createHandler env db p).resp.status = 503 ∧
      (createHandler env db p).resp.code = some "SIGNATURE_SAVE_FAILED" ∧
      (createHandler env db p).resp.details = [e2] ∧
      Ev.dbInsert ∉ (createHandler env db p).trace ∧
      (createHandler env db p).db = db) := by
  refine ⟨saveSignature_write_count env.sig _, createHandler_sigwrite_count env db p, ?_⟩
  intro cont e1 e2 hs hp hv hcont hce hee hlr hdae hdte hda hdt hmk hw1 hw2 he2
  exact createHandler_sig_double_failure env db p cont e1 e2 hs hp hv hcont hce hee
    hlr hdae hdte hda hdt hmk hw1 hw2 he2

set_option maxRecDepth 8000 in
/-- Witness for C2: with both writes failing, the concrete valid submission
is refused with SIGNATURE_SAVE_FAILED carrying the second error, and the
store stays empty. -/
theorem C2_signature_save_retry_witness :
    (createHandler sigFailEnv [] goodPayload).resp.code = some "SIGNATURE_SAVE_FAILED" ∧
    (createHandler sigFailEnv [] goodPayload).resp.details = ["ETIMEDOUT"] ∧
    (createHandler sigFailEnv [] goodPayload).db = [] := by
  have h := (C2_signature_save_retry sigFailEnv [] goodPayload).2.2 "AAAA" "EACCES" "ETIMEDOUT"
    (by decide) (by decide) (by rw [validate_goodPayload]) (by decide)
    rfl rfl rfl rfl rfl rfl rfl
    rfl rfl rfl (by decide)
  exact ⟨h.2.1, h.2.2.1, h.2.2.2.2⟩

end Aneco

namespace Aneco

set_option maxHeartbeats 1000000 in
/-- A duplicate account match makes the create handler answer 409 before
any write. -/
theorem createHandler_dup_acct (env : Env) (db : List Row) (p : Payload)
    (hs : sigTruthy p.signature = true)
    (hp : strHasPrefix (p.signature.getD "") pngPrefix = true)
    (hv : (validateOcrPayload p).errors = [])
    (hce : env.connErr = none) (hee : env.ensureErr = none)
    (hlr : env.lockRes = Except.ok true) (hdae : env.dupAcctErr = none)
    (hmatch : 0 < acctDupCount db (validateOcrPayload p).data.accountNumber none) :
    (createHandler env db p).resp.status = 409 ∧
    (createHandler env db p).resp.code = some "DUPLICATE_ACCOUNT_NUMBER" ∧
    (createHandler env db p).trace.all (fun e => !isWriteEv e) = true ∧
    (createHandler env db p).db = db := by
  obtain ⟨ce, ee, lr, dae, dte, sg, ir, ur, nw⟩ := env
  dsimp only at hce hee hlr hdae
  subst hce; subst hee; subst hlr; subst hdae
  unfold createHandler
  dsimp only
  rw [hs, hp, hv]
  rw [if_neg (by decide), if_neg (by decide), if_neg (by decide)]
  rw [if_pos hmatch]
  exact ⟨rfl, rfl, rfl, rfl⟩

set_option maxHeartbeats 1000000 in
/-- Without an account match, a duplicate transaction-reference match makes
the create handler answer 409 before any write. -/
theorem createHandler_dup_tx (env : Env) (db : List Row) (p : Payload)
    (hs : sigTruthy p.signature = true)
    (hp : strHasPrefix (p.signature.getD "") pngPrefix = true)
    (hv : (validateOcrPayload p).errors = [])
    (hce : env.connErr = none) (hee : env.ensureErr = none)
    (hlr : env.lockRes = Except.ok true) (hdae : env.dupAcctErr = none)
    (hdte : env.dupTxErr = none)
    (hda : acctDupCount db (validateOcrPayload p).data.accountNumber none = 0)
    (hmatch : 0 < txDupCount db (validateOcrPayload p).data.transactionRef none) :
    (createHandler env db p).resp.status = 409 ∧
    (createHandler env db p).resp.code = some "DUPLICATE_TRANSACTION_REFERENCE" ∧
    (createHandler env db p).trace.all (fun e => !isWriteEv e) = true ∧
    (createHandler env db p).db = db := by
  obtain ⟨ce, ee, lr, dae, dte, sg, ir, ur, nw⟩ := env
  dsimp only at hce hee hlr hdae hdte
  subst hce; subst hee; subst hlr; subst hdae; subst hdte
  unfold createHandler
  dsimp only
  rw [hs, hp, hv]
  rw [if_neg (by decide), if_neg (by decide), if_neg (by decide)]
  rw [hda]
  rw [if_neg (by decide)]
  rw [if_pos hmatch]
  exact ⟨rfl, rfl, rfl, rfl⟩

set_option maxHeartbeats 1000000 in
/-- With no duplicate match and a successful signature save, the create
handler inserts and answers 200 with the new id. -/
theorem createHandler_no_dup_ok (env : Env) (db : List Row) (p : Payload)
    (cont : String) (n : Nat)
    (hs : sigTruthy p.signature = true)
    (hp : strHasPrefix (p.signature.getD "") pngPrefix = true)
    (hv : (validateOcrPayload p).errors = [])
    (hce : env.connErr = none) (hee : env.ensureErr = none)
    (hlr : env.lockRes = Except.ok true) (hdae : env.dupAcctErr = none)
    (hdte : env.dupTxErr = none)
    (hda : acctDupCount db (validateOcrPayload p).data.accountNumber none = 0)
    (hdt : txDupCount db (validateOcrPayload p).data.transactionRef none = 0)
    (hcont : pngContent (p.signature.getD "") = some cont)
    (hmk : env.sig.mkdirRes = Except.ok ())
    (hw1 : env.sig.write1 = Except.ok ())
    (hins : env.insertRes = Except.ok n) :
    (createHandler env db p).resp.status = 200 ∧
    (createHandler env db p).resp.ok = true ∧
    (createHandler env db p).resp.id = some n ∧
    (createHandler env db p).db =
      db ++ [mkRow n (validateOcrPayload p).data (some env.sig.filename) env.now] := by
  obtain ⟨ce, ee, lr, dae, dte, ⟨fn, mk, w1, w2⟩, ir, ur, nw⟩ := env
  dsimp only at hce hee hlr hdae hdte hmk hw1 hins
  subst hce; subst hee; subst hlr; subst hdae; subst hdte
  subst hmk; subst hw1; subst hins
  unfold createHandler saveSignature
  dsimp only
  rw [hs, hp, hv, hcont]
  rw [if_neg (by decide), if_neg (by decide), if_neg (by decide)]
  rw [hda, hdt]
  rw [if_neg (by decide), if_neg (by decide)]
  exact ⟨rfl, rfl, rfl, rfl⟩


set_option maxHeartbeats 1000000 in
/-- A duplicate account match outside the own id makes the update handler
answer 409 before any write. -/
theorem updateHandler_dup_acct (env : Env) (db : List Row) (idp : Nat) (p : Payload)
    (hid : idp ≠ 0)
    (hv : (validateOcrPayload p).errors = [])
    (hce : env.connErr = none) (hee : env.ensureErr = none)
    (hlr : env.lockRes = Except.ok true) (hdae : env.dupAcctErr = none)
    (hmatch : 0 < acctDupCount db (validateOcrPayload p).data.accountNumber (some idp)) :
    (updateHandler env db idp p).resp.status = 409 ∧
    (updateHandler env db idp p).resp.code = some "DUPLICATE_ACCOUNT_NUMBER" ∧
    (updateHandler env db idp p).trace.all (fun e => !isWriteEv e) = true ∧
    (updateHandler env db idp p).db = db := by
  obtain ⟨ce, ee, lr, dae, dte, sg, ir, ur, nw⟩ := env
  dsimp only at hce hee hlr hdae
  subst hce; subst hee; subst hlr; subst hdae
  unfold updateHandler
  dsimp only
  rw [if_neg hid, hv]
  rw [if_neg (by decide)]
  rw [if_pos hmatch]
  exact ⟨rfl, rfl, rfl, rfl⟩

set_option maxHeartbeats 1000000 in
/-- Without an account match, a duplicate transaction-reference match
outside the own id makes the update handler answer 409 before any write. -/
theorem updateHandler_dup_tx (env : Env) (db : List Row) (idp : Nat) (p : Payload)
    (hid : idp ≠ 0)
    (hv : (validateOcrPayload p).errors = [])
    (hce : env.connErr = none) (hee : env.ensureErr = none)
    (hlr : env.lockRes = Except.ok true) (hdae : env.dupAcctErr = none)
    (hdte : env.dupTxErr = none)
    (hda : acctDupCount db (validateOcrPayload p).data.accountNumber (some idp) = 0)
    (hmatch : 0 < txDupCount db (validateOcrPayload p).data.transactionRef (some idp)) :
    (updateHandler env db idp p).resp.status = 409 ∧
    (updateHandler env db idp p).resp.code = some "DUPLICATE_TRANSACTION_REFERENCE" ∧
    (updateHandler env db idp p).trace.all (fun e => !isWriteEv e) = true ∧
    (updateHandler env db idp p).db = db := by
  obtain ⟨ce, ee, lr, dae, dte, sg, ir, ur, nw⟩ := env
  dsimp only at hce hee hlr hdae hdte
  subst hce; subst hee; subst hlr; subst hdae; subst hdte
  unfold updateHandler
  dsimp only
  rw [if_neg hid, hv]
  rw [if_neg (by decide)]
  rw [hda]
  rw [if_neg (by decide)]
  rw [if_pos hmatch]
  exact ⟨rfl, rfl, rfl, rfl⟩

set_option maxHeartbeats 1000000 in
/-- With no duplicate match, the update handler updates the nine data
columns of the addressed row and answers 200. -/
theorem updateHandler_no_dup_ok (env : Env) (db : List Row) (idp : Nat) (p : Payload)
    (n : Nat)
    (hid : idp ≠ 0)
    (hv : (validateOcrPayload p).errors = [])
    (hce : env.connErr = none) (hee : env.ensureErr = none)
    (hlr : env.lockRes = Except.ok true) (hdae : env.dupAcctErr = none)
    (hdte : env.dupTxErr = none)
    (hda : acctDupCount db (validateOcrPayload p).data.accountNumber (some idp) = 0)
    (hdt : txDupCount db (validateOcrPayload p).data.transactionRef (some idp) = 0)
    (hupd : env.updateRes = Except.ok n) :
    (updateHandler env db idp p).resp.status = 200 ∧
    (updateHandler env db idp p).resp.ok = true ∧
    (updateHandler env db idp p).resp.affectedRows = some n ∧
    (updateHandler env db idp p).db =
      db.map (fun r => if r.id = idp then applyUpdate (validateOcrPayload p).data r else r) := by
  obtain ⟨ce, ee, lr, dae, dte, sg, ir, ur, nw⟩ := env
  dsimp only at hce hee hlr hdae hdte hupd
  subst hce; subst hee; subst hlr; subst hdae; subst hdte; subst hupd
  unfold updateHandler
  dsimp only
  rw [if_neg hid, hv]
  rw [if_neg (by decide)]
  rw [hda, hdt]
  rw [if_neg (by decide), if_neg (by decide)]
  exact ⟨rfl, rfl, rfl, rfl⟩


/-- Normalization is insensitive to the getD coercion of an absent field. -/
theorem normalizeAccountNumber_getD (v : Option String) :
    normalizeAccountNumber (some (v.getD "")) = normalizeAccountNumber v := by
  cases v <;> rfl

/-- The duplicate scope of a create submission is the whole record set. -/
theorem dupScope_none (db : List Row) : dupScope db none = db := by
  unfold dupScope
  simp

/-- The duplicate scope of an update excludes exactly the own id. -/
theorem exists_dupScope_some (db : List Row) (idp : Nat) (P : Row → Prop) :
    (∃ r ∈ dupScope db (some idp), P r) ↔ ∃ r ∈ db, r.id ≠ idp ∧ P r := by
  unfold dupScope
  simp [List.mem_filter, and_assoc]

/-- The duplicate account query counts a row exactly when its stored
account number equals the submitted one under case-insensitive,
whitespace-insensitive comparison, given stored rows whose SQL key agrees
with full normalization. -/
theorem acct_match_iff (db : List Row) (excl : Option Nat) (p : Payload)
    (hinv : ∀ r ∈ db,
      sqlAcctKey r.account_number = normalizeAccountNumber (some r.account_number)) :
    0 < acctDupCount db (validateOcrPayload p).data.accountNumber excl ↔
      ∃ r ∈ dupScope db excl,
        acctInsensitiveEq r.account_number (p.accountNumber.getD "") = true := by
  have hnorm : (validateOcrPayload p).data.accountNumber =
      normalizeAccountNumber p.accountNumber := rfl
  unfold acctDupCount
  rw [List.countP_pos_iff]
  constructor
  · rintro ⟨r, hr, hm⟩
    have hrdb : r ∈ db := (List.mem_filter.mp hr).1
    refine ⟨r, hr, ?_⟩
    unfold acctInsensitiveEq
    rw [normalizeAccountNumber_getD, ← hinv r hrdb]
    simpa [hnorm] using hm
  · rintro ⟨r, hr, hm⟩
    have hrdb : r ∈ db := (List.mem_filter.mp hr).1
    refine ⟨r, hr, ?_⟩
    unfold acctInsensitiveEq at hm
    rw [normalizeAccountNumber_getD, ← hinv r hrdb] at hm
    simpa [hnorm] using hm

/-- The duplicate transaction query counts a row exactly when its stored
reference equals the submitted normalized reference as a raw string. -/
theorem tx_match_iff (db : List Row) (excl : Option Nat) (p : Payload) :
    0 < txDupCount db (validateOcrPayload p).data.transactionRef excl ↔
      ∃ r ∈ dupScope db excl,
        r.transaction_ref = (validateOcrPayload p).data.transactionRef := by
  unfold txDupCount
  rw [List.countP_pos_iff]
  simp


/-- C3: duplicate checks run by account number under case-insensitive,
whitespace-insensitive equality and by transaction reference under raw
string equality, over the full record set on create and excluding only the
own id on update; a match on either check terminates the submission with
the corresponding duplicate code before any write, and with no match the
submission proceeds. -/
theorem C3_duplicate_checks (env : Env) (db : List Row) (p : Payload) (idp : Nat)
    (hinv : ∀ r ∈ db,
      sqlAcctKey r.account_number = normalizeAccountNumber (some r.account_number))
    (hv : (validateOcrPayload p).errors = [])
    (hce : env.connErr = none) (hee : env.ensureErr = none)
    (hlr : env.lockRes = Except.ok true)
    (hdae : env.dupAcctErr = none) (hdte : env.dupTxErr = none) :
    (sigTruthy p.signature = true →
      strHasPrefix (p.signature.getD "") pngPrefix = true →
      ((∃ r ∈ db, acctInsensitiveEq r.account_number (p.accountNumber.getD "") = true) →
        (createHandler env db p).resp.status = 409 ∧
        (createHandler env db p).resp.code = some "DUPLICATE_ACCOUNT_NUMBER" ∧
        (createHandler env db p).trace.all (fun e => !isWriteEv e) = true ∧
        (createHandler env db p).db = db) ∧
      ((∀ r ∈ db, acctInsensitiveEq r.account_number (p.accountNumber.getD "") = false) →
        (∃ r ∈ db, r.transaction_ref = (validateOcrPayload p).data.transactionRef) →
        (createHandler env db p).resp.status = 409 ∧
        (createHandler env db p).resp.code = some "DUPLICATE_TRANSACTION_REFERENCE" ∧
        (createHandler env db p).trace.all (fun e => !isWriteEv e) = true ∧
        (createHandler env db p).db = db) ∧
      ((∀ r ∈ db, acctInsensitiveEq r.account_number (p.accountNumber.getD "") = false) →
        (∀ r ∈ db, r.transaction_ref ≠ (validateOcrPayload p).data.transactionRef) →
        ∀ (cont : String) (n : Nat),
          pngContent (p.signature.getD "") = some cont →
          env.sig.mkdirRes = Except.ok () →
          env.sig.write1 = Except.ok () →
          env.insertRes = Except.ok n →
          (createHandler env db p).resp.status = 200 ∧
          (createHandler env db p).resp.ok = true)) ∧
    (idp ≠ 0 →
      ((∃ r ∈ db, r.id ≠ idp ∧
          acctInsensitiveEq r.account_number (p.accountNumber.getD "") = true) →
        (updateHandler env db idp p).resp.status = 409 ∧
        (updateHandler env db idp p).resp.code = some "DUPLICATE_ACCOUNT_NUMBER" ∧
        (updateHandler env db idp p).trace.all (fun e => !isWriteEv e) = true ∧
        (updateHandler env db idp p).db = db) ∧
      ((∀ r ∈ db, r.id ≠ idp →
          acctInsensitiveEq r.account_number (p.accountNumber.getD "") = false) →
        (∃ r ∈ db, r.id ≠ idp ∧
          r.transaction_ref = (validateOcrPayload p).data.transactionRef) →
        (updateHandler env db idp p).resp.status = 409 ∧
        (updateHandler env db idp p).resp.code = some "DUPLICATE_TRANSACTION_REFERENCE" ∧
        (updateHandler env db idp p).trace.all (fun e => !isWriteEv e) = true ∧
        (updateHandler env db idp p).db = db) ∧
      ((∀ r ∈ db, r.id ≠ idp →
          acctInsensitiveEq r.account_number (p.accountNumber.getD "") = false) →
        (∀ r ∈ db, r.id ≠ idp →
          r.transaction_ref ≠ (validateOcrPayload p).data.transactionRef) →
        ∀ n : Nat, env.updateRes = Except.ok n →
          (updateHandler env db idp p).resp.status = 200 ∧
          (updateHandler env db idp p).resp.ok = true)) := by
  constructor
  · intro hs hp
    refine ⟨?_, ?_, ?_⟩
    · intro hex
      rw [← dupScope_none db] at hex
      exact createHandler_dup_acct env db p hs hp hv hce hee hlr hdae
        ((acct_match_iff db none p hinv).mpr hex)
    · intro hno hex
      have h0 : acctDupCount db (validateOcrPayload p).data.accountNumber none = 0 := by
        by_contra hne
        obtain ⟨r, hr, hm⟩ := (acct_match_iff db none p hinv).mp (Nat.pos_of_ne_zero hne)
        rw [dupScope_none] at hr
        simp [hno r hr] at hm
      rw [← dupScope_none db] at hex
      exact createHandler_dup_tx env db p hs hp hv hce hee hlr hdae hdte h0
        ((tx_match_iff db none p).mpr hex)
    · intro hnoa hnot cont n hcont hmk hw1 hins
      have h0a : acctDupCount db (validateOcrPayload p).data.accountNumber none = 0 := by
        by_contra hne
        obtain ⟨r, hr, hm⟩ := (acct_match_iff db none p hinv).mp (Nat.pos_of_ne_zero hne)
        rw [dupScope_none] at hr
        simp [hnoa r hr] at hm
      have h0t : txDupCount db (validateOcrPayload p).data.transactionRef none = 0 := by
        by_contra hne
        obtain ⟨r, hr, hm⟩ := (tx_match_iff db none p).mp (Nat.pos_of_ne_zero hne)
        rw [dupScope_none] at hr
        exact hnot r hr hm
      have h := createHandler_no_dup_ok env db p cont n hs hp hv hce hee hlr hdae hdte
        h0a h0t hcont hmk hw1 hins
      exact ⟨h.1, h.2.1⟩
  · intro hid
    refine ⟨?_, ?_, ?_⟩
    · intro hex
      rw [← exists_dupScope_some db idp
        (fun r => acctInsensitiveEq r.account_number (p.accountNumber.getD "") = true)] at hex
      exact updateHandler_dup_acct env db idp p hid hv hce hee hlr hdae
        ((acct_match_iff db (some idp) p hinv).mpr hex)
    · intro hno hex
      have h0 : acctDupCount db (validateOcrPayload p).data.accountNumber (some idp) = 0 := by
        by_contra hne
        obtain ⟨r, hr, hm⟩ := (acct_match_iff db (some idp) p hinv).mp (Nat.pos_of_ne_zero hne)
        obtain ⟨hrdb, hrid⟩ := List.mem_filter.mp hr
        simp only [decide_eq_true_eq] at hrid
        simp [hno r hrdb hrid] at hm
      rw [← exists_dupScope_some db idp
        (fun r => r.transaction_ref = (validateOcrPayload p).data.transactionRef)] at hex
      exact updateHandler_dup_tx env db idp p hid hv hce hee hlr hdae hdte h0
        ((tx_match_iff db (some idp) p).mpr hex)
    · intro hnoa hnot n hupd
      have h0a : acctDupCount db (validateOcrPayload p).data.accountNumber (some idp) = 0 := by
        by_contra hne
        obtain ⟨r, hr, hm⟩ := (acct_match_iff db (some idp) p hinv).mp (Nat.pos_of_ne_zero hne)
        obtain ⟨hrdb, hrid⟩ := List.mem_filter.mp hr
        simp only [decide_eq_true_eq] at hrid
        simp [hnoa r hrdb hrid] at hm
      have h0t : txDupCount db (validateOcrPayload p).data.transactionRef (some idp) = 0 := by
        by_contra hne
        obtain ⟨r, hr, hm⟩ := (tx_match_iff db (some idp) p).mp (Nat.pos_of_ne_zero hne)
        obtain ⟨hrdb, hrid⟩ := List.mem_filter.mp hr
        simp only [decide_eq_true_eq] at hrid
        exact hnot r hrdb hrid hm
      have h := updateHandler_no_dup_ok env db idp p n hid hv hce hee hlr hdae hdte
        h0a h0t hupd
      exact ⟨h.1, h.2.1⟩


set_option maxRecDepth 8000 in
/-- Witness for C3: a stored row with the same account number rejects the
create with the duplicate-account code; a row sharing only the transaction
reference rejects with the duplicate-reference code; an update addressing
the matching row itself is not blocked by its own row. -/
theorem C3_duplicate_checks_witness :
    (createHandler okEnv [dupAcctRow] goodPayload).resp.code =
      some "DUPLICATE_ACCOUNT_NUMBER" ∧
    (createHandler okEnv [dupTxRow] goodPayload).resp.code =
      some "DUPLICATE_TRANSACTION_REFERENCE" ∧
    (updateHandler okEnv [dupAcctRow] 5 goodPayload).resp.status = 200 := by
  have hv : (validateOcrPayload goodPayload).errors = [] := by rw [validate_goodPayload]
  have h1 := C3_duplicate_checks okEnv [dupAcctRow] goodPayload 5
    (by decide) hv rfl rfl rfl rfl rfl
  have h2 := C3_duplicate_checks okEnv [dupTxRow] goodPayload 5
    (by decide) hv rfl rfl rfl rfl rfl
  refine ⟨?_, ?_, ?_⟩
  · exact ((h1.1 (by decide) (by decide)).1
      ⟨dupAcctRow, List.mem_singleton.mpr rfl, by decide⟩).2.1
  · exact ((h2.1 (by decide) (by decide)).2.1 (by decide)
      ⟨dupTxRow, List.mem_singleton.mpr rfl, by decide⟩).2.1
  · exact ((h1.2 (by decide)).2.2 (by decide) (by decide) 1 rfl).1

end Aneco

namespace Aneco

/-- Full evaluation of the validator on the payload whose signature is the
bare PNG prefix; the validator does not read the signature. -/
theorem validate_emptySigPayload :
    validateOcrPayload emptySigPayload = ⟨[], goodData⟩ := by
  unfold validateOcrPayload emptySigPayload goodPayload
  dsimp only
  rw [parseMoney_100]
  dsimp only
  rw [if_neg (by norm_num : ¬ (100 : ℚ) < 50)]
  decide

/-- C6 amended: a present, non-empty signature payload that does not start
with the PNG data-URL prefix is rejected immediately with
INVALID_SIGNATURE_FORMAT, before any storage access or database write; a
payload that is the bare prefix with empty content passes this check
instead. -/
theorem C6_signature_format_reject (env : Env) (db : List Row) (p : Payload) (s : String)
    (hsig : p.signature = some s) (hne : s ≠ "")
    (hp : strHasPrefix s pngPrefix = false) :
    (createHandler env db p).resp.status = 400 ∧
    (createHandler env db p).resp.code = some "INVALID_SIGNATURE_FORMAT" ∧
    (createHandler env db p).trace = [] ∧
    (createHandler env db p).db = db := by
  have hs : sigTruthy p.signature = true := by
    rw [hsig]
    simp [sigTruthy, hne]
  unfold createHandler
  dsimp only
  rw [hs, hsig]
  dsimp only [Option.getD]
  rw [hp]
  rw [if_neg (by decide), if_pos (by decide)]
  exact ⟨rfl, rfl, rfl, rfl⟩

set_option maxRecDepth 8000 in
/-- Counterexample to C6: the bare-prefix signature with empty content does
not match the claimed PNG shape, yet the submission is not rejected with
INVALID_SIGNATURE_FORMAT; it proceeds past the format check, runs the
duplicate checks, and only then fails with SIGNATURE_SAVE_FAILED. -/
theorem C6_counterexample :
    specPngShape "data:image/png;base64," = false ∧
    (createHandler okEnv [] emptySigPayload).resp.code = some "SIGNATURE_SAVE_FAILED" ∧
    (createHandler okEnv [] emptySigPayload).resp.code ≠ some "INVALID_SIGNATURE_FORMAT" ∧
    (createHandler okEnv [] emptySigPayload).trace ≠ [] := by
  refine ⟨by decide, ?_, ?_, ?_⟩ <;>
    (unfold createHandler
     dsimp only
     rw [validate_emptySigPayload]
     decide)

set_option maxRecDepth 8000 in
/-- Witness for C6 amended: a signature that is not a data URL is rejected
with INVALID_SIGNATURE_FORMAT and an empty effect trace. -/
theorem C6_signature_format_reject_witness :
    (createHandler okEnv [] badSigPayload).resp.code = some "INVALID_SIGNATURE_FORMAT" ∧
    (createHandler okEnv [] badSigPayload).trace = [] := by
  have h := C6_signature_format_reject okEnv [] badSigPayload "notaurl" rfl
    (by decide) (by decide)
  exact ⟨h.2.1, h.2.2.1⟩


set_option maxHeartbeats 1000000 in
/-- C9: an update by id leaves the stored id, signatureName and createdAt
of every row unchanged, leaves rows with another id entirely unchanged, and
the UPDATE statement itself writes exactly the nine data columns. -/
theorem C9_update_immutable_fields (env : Env) (db : List Row) (idp : Nat) (p : Payload) :
    List.Forall₂ (fun r rp => rp.id = r.id ∧ rp.signature_name = r.signature_name ∧
        rp.created_at = r.created_at ∧ (r.id ≠ idp → rp = r))
      db (updateHandler env db idp p).db ∧
    (∀ (d : OcrData) (r : Row),
      (applyUpdate d r).id = r.id ∧
      (applyUpdate d r).signature_name = r.signature_name ∧
      (applyUpdate d r).created_at = r.created_at ∧
      (applyUpdate d r).transaction_ref = d.transactionRef ∧
      (applyUpdate d r).account_number = d.accountNumber ∧
      (applyUpdate d r).customer_name = d.customerName ∧
      (applyUpdate d r).scanner_name = d.scannerName ∧
      (applyUpdate d r).company = d.company ∧
      (applyUpdate d r).date = d.date ∧
      (applyUpdate d r).electricity_bill = d.electricityBill ∧
      (applyUpdate d r).amount_due = d.amountDue ∧
      (applyUpdate d r).total_sales = d.totalSales) := by
  constructor
  · unfold updateHandler
    dsimp only
    repeat' split
    all_goals try exact List.forall₂_same.mpr (fun r hr => ⟨rfl, rfl, rfl, fun _ => rfl⟩)
    all_goals rw [List.forall₂_map_right_iff]
    all_goals refine List.forall₂_same.mpr (fun r hr => ?_)
    all_goals by_cases h : r.id = idp
    all_goals simp [h, applyUpdate]
  · intro d r
    exact ⟨rfl, rfl, rfl, rfl, rfl, rfl, rfl, rfl, rfl, rfl, rfl, rfl⟩

/-- Witness for C9 at a concrete update over a one-row store. -/
theorem C9_update_immutable_fields_witness :
    List.Forall₂ (fun r rp => rp.id = r.id ∧ rp.signature_name = r.signature_name ∧
        rp.created_at = r.created_at ∧ (r.id ≠ 5 → rp = r))
      [dupAcctRow] (updateHandler okEnv [dupAcctRow] 5 goodPayload).db := by
  exact (C9_update_immutable_fields okEnv [dupAcctRow] 5 goodPayload).1


set_option maxHeartbeats 1000000 in
/-- An ER_DUP_ENTRY failure of the insert makes the create handler answer
409 with the duplicate-account code and message, whatever constraint the
store names. -/
theorem createHandler_dupentry (env : Env) (db : List Row) (p : Payload)
    (cont c : String)
    (hs : sigTruthy p.signature = true)
    (hp : strHasPrefix (p.signature.getD "") pngPrefix = true)
    (hv : (validateOcrPayload p).errors = [])
    (hce : env.connErr = none) (hee : env.ensureErr = none)
    (hlr : env.lockRes = Except.ok true) (hdae : env.dupAcctErr = none)
    (hdte : env.dupTxErr = none)
    (hda : acctDupCount db (validateOcrPayload p).data.accountNumber none = 0)
    (hdt : txDupCount db (validateOcrPayload p).data.transactionRef none = 0)
    (hcont : pngContent (p.signature.getD "") = some cont)
    (hmk : env.sig.mkdirRes = Except.ok ())
    (hw1 : env.sig.write1 = Except.ok ())
    (hins : env.insertRes = Except.error (.dupEntry c)) :
    (createHandler env db p).resp.status = 409 ∧
    (createHandler env db p).resp.code = some "DUPLICATE_ACCOUNT_NUMBER" ∧
    (createHandler env db p).resp.error = some "Account number already exists in database" ∧
    (createHandler env db p).db = db := by
  obtain ⟨ce, ee, lr, dae, dte, ⟨fn, mk, w1, w2⟩, ir, ur, nw⟩ := env
  dsimp only at hce hee hlr hdae hdte hmk hw1 hins
  subst hce; subst hee; subst hlr; subst hdae; subst hdte
  subst hmk; subst hw1; subst hins
  unfold createHandler saveSignature
  dsimp only
  rw [hs, hp, hv, hcont]
  rw [if_neg (by decide), if_neg (by decide), if_neg (by decide)]
  rw [hda, hdt]
  rw [if_neg (by decide), if_neg (by decide)]
  exact ⟨rfl, rfl, rfl, rfl⟩

set_option maxHeartbeats 1000000 in
/-- An ER_DUP_ENTRY failure of the update makes the update handler answer
409 with the duplicate-account code and message, whatever constraint the
store names. -/
theorem updateHandler_dupentry (env : Env) (db : List Row) (idp : Nat) (p : Payload)
    (c : String)
    (hid : idp ≠ 0)
    (hv : (validateOcrPayload p).errors = [])
    (hce : env.connErr = none) (hee : env.ensureErr = none)
    (hlr : env.lockRes = Except.ok true) (hdae : env.dupAcctErr = none)
    (hdte : env.dupTxErr = none)
    (hda : acctDupCount db (validateOcrPayload p).data.accountNumber (some idp) = 0)
    (hdt : txDupCount db (validateOcrPayload p).data.transactionRef (some idp) = 0)
    (hupd : env.updateRes = Except.error (.dupEntry c)) :
    (updateHandler env db idp p).resp.status = 409 ∧
    (updateHandler env db idp p).resp.code = some "DUPLICATE_ACCOUNT_NUMBER" ∧
    (updateHandler env db idp p).resp.error = some "Account number already exists in database" ∧
    (updateHandler env db idp p).db = db := by
  obtain ⟨ce, ee, lr, dae, dte, sg, ir, ur, nw⟩ := env
  dsimp only at hce hee hlr hdae hdte hupd
  subst hce; subst hee; subst hlr; subst hdae; subst hdte; subst hupd
  unfold updateHandler
  dsimp only
  rw [if_neg hid, hv]
  rw [if_neg (by decide)]
  rw [hda, hdt]
  rw [if_neg (by decide), if_neg (by decide)]
  exact ⟨rfl, rfl, rfl, rfl⟩

/-- C10: whenever the record store itself raises the duplicate-key error
ER_DUP_ENTRY, the response of both the create and the update endpoint is
HTTP 409 with code DUPLICATE_ACCOUNT_NUMBER and the account-exists message,
regardless of which unique constraint the store reports. -/
theorem C10_dup_entry_collapsed (env : Env) (db : List Row) (p : Payload) (idp : Nat) :
    (∀ cont c : String,
      sigTruthy p.signature = true →
      strHasPrefix (p.signature.getD "") pngPrefix = true →
      (validateOcrPayload p).errors = [] →
      env.connErr = none → env.ensureErr = none →
      env.lockRes = Except.ok true →
      env.dupAcctErr = none → env.dupTxErr = none →
      acctDupCount db (validateOcrPayload p).data.accountNumber none = 0 →
      txDupCount db (validateOcrPayload p).data.transactionRef none = 0 →
      pngContent (p.signature.getD "") = some cont →
      env.sig.mkdirRes = Except.ok () →
      env.sig.write1 = Except.ok () →
      env.insertRes = Except.error (.dupEntry c) →
      (createHandler env db p).resp.status = 409 ∧
      (createHandler env db p).resp.code = some "DUPLICATE_ACCOUNT_NUMBER" ∧
      (createHandler env db p).resp.error = some "Account number already exists in database" ∧
      (createHandler env db p).db = db) ∧
    (∀ c : String,
      idp ≠ 0 →
      (validateOcrPayload p).errors = [] →
      env.connErr = none → env.ensureErr = none →
      env.lockRes = Except.ok true →
      env.dupAcctErr = none → env.dupTxErr = none →
      acctDupCount db (validateOcrPayload p).data.accountNumber (some idp) = 0 →
      txDupCount db (validateOcrPayload p).data.transactionRef (some idp) = 0 →
      env.updateRes = Except.error (.dupEntry c) →
      (updateHandler env db idp p).resp.status = 409 ∧
      (updateHandler env db idp p).resp.code = some "DUPLICATE_ACCOUNT_NUMBER" ∧
      (updateHandler env db idp p).resp.error = some "Account number already exists in database" ∧
      (updateHandler env db idp p).db = db) := by
  constructor
  · intro cont c hs hp hv hce hee hlr hdae hdte hda hdt hcont hmk hw1 hins
    exact createHandler_dupentry env db p cont c hs hp hv hce hee hlr hdae hdte
      hda hdt hcont hmk hw1 hins
  · intro c hid hv hce hee hlr hdae hdte hda hdt hupd
    exact updateHandler_dupentry env db idp p c hid hv hce hee hlr hdae hdte
      hda hdt hupd

set_option maxRecDepth 8000 in
/-- Witness for C10: a store-level duplicate error on the transaction
reference constraint still produces the account-number response on both
endpoints. -/
theorem C10_dup_entry_collapsed_witness :
    (createHandler dupInsertEnv [] goodPayload).resp.code = some "DUPLICATE_ACCOUNT_NUMBER" ∧
    (createHandler dupInsertEnv [] goodPayload).resp.error =
      some "Account number already exists in database" ∧
    (updateHandler dupUpdateEnv [] 1 goodPayload).resp.code = some "DUPLICATE_ACCOUNT_NUMBER" := by
  have hv : (validateOcrPayload goodPayload).errors = [] := by rw [validate_goodPayload]
  have h1 := (C10_dup_entry_collapsed dupInsertEnv [] goodPayload 1).1 "AAAA" "transaction_ref"
    (by decide) (by decide) hv rfl rfl rfl rfl rfl rfl rfl (by decide) rfl rfl rfl
  have h2 := (C10_dup_entry_collapsed dupUpdateEnv [] goodPayload 1).2 "transaction_ref"
    (by decide) hv rfl rfl rfl rfl rfl rfl rfl rfl
  exact ⟨h1.2.1, h1.2.2.1, h2.2.1⟩

end Aneco
